import Mathlib

/-!
Verification development for the `tk-flame-export` export preset module
(`python/tk_flame_export_no_ui/export_preset.py`).

The module wraps Flame export presets: `ExportPreset` exposes accessors over a
raw configuration record (a Python dict), derives publish names and quicktime
paths, translates Toolkit path templates into Flame's placeholder dialect, and
computes frame/version padding values for the generated XML preset.
`ExportPresetHandler` builds a name-keyed dict of presets and offers exact-name
lookup plus a reverse scan from a render path.

The embedding below models Python dicts as association lists with first-match
lookup, Python `KeyError` / sgtk `TankError` as an explicit error type
threaded through `Except`, and the host's template objects (`sgtk` template
engine, an out-of-scope collaborator) as records of total functions.
-/

set_option autoImplicit false

namespace TkFlameExport

/-- Errors visible in the modelled code: Python `KeyError` raised by dict
access on an absent key, and sgtk's `TankError` carrying a message string. -/
inductive PyError where
  | keyError (key : String)
  | tankError (msg : String)
  deriving DecidableEq, Repr

/-- Python dict access `d[k]`: the value when the key is present, otherwise a
`KeyError` naming the key. Dicts are modelled as association lists with
first-match lookup (a Python dict has at most one entry per key). -/
def dictGetE {α : Type} (d : List (String × α)) (k : String) : Except PyError α :=
  match d.lookup k with
  | some v => Except.ok v
  | none => Except.error (PyError.keyError k)

/-- Python dict assignment `d[k] = v`: overwrites the entry in place when the
key is present, otherwise appends a new entry. -/
def dictInsert {α : Type} (d : List (String × α)) (k : String) (v : α) : List (String × α) :=
  if d.any (fun kv => kv.1 == k) then
    d.map (fun kv => if kv.1 == k then (k, v) else kv)
  else
    d ++ [(k, v)]

/-- A field descriptor of the host's template engine: `template.keys[name]`
yields an object exposing a `format_spec` zero-padding width specifier
(e.g. `"04"`). -/
structure TemplateKey where
  format_spec : String
  deriving DecidableEq, Repr

/-- The host's template object (out-of-scope collaborator, section 6 of the
spec): `validate(path)`, `get_fields(path)`, `apply_fields(fields)`, the raw
`definition` token string, and the `keys` dict of field descriptors.
Field mappings are association lists of field name to textual value. -/
structure Template where
  definition : String
  validate : String → Bool
  get_fields : String → List (String × String)
  apply_fields : List (String × String) → String
  keys : String → Option TemplateKey

/-- The slice of the host application object the modelled code reaches for:
the template registry (`get_template_by_name`, total per the spec's
collaborator contract) and the `shot_parent_entity_type` setting. -/
structure App where
  get_template_by_name : String → Template
  shot_parent_entity_type : String

/-- `ExportPreset`: wraps the raw preset configuration record (`raw_preset`
dict of the preset's `info.yml` data) plus the host application handle.
Configuration values are modelled as strings; an empty string is the falsy
(unset) value. -/
structure ExportPreset where
  app : App
  raw_preset : List (String × String)

/-- Python `"%s" % v` applied to the result of `dict.get`: the string itself
when the key was present, `str(None) = "None"` when absent. -/
def pyStrOfOpt : Option String → String
  | some s => s
  | none => "None"

namespace ExportPreset

/-- `get_name`: `self._raw_preset["name"]`. -/
def get_name (p : ExportPreset) : Except PyError String :=
  dictGetE p.raw_preset "name"

/-- `get_render_template`: looks up `self._raw_preset["template"]` and
resolves it through the host registry. -/
def get_render_template (p : ExportPreset) : Except PyError Template :=
  (dictGetE p.raw_preset "template").map p.app.get_template_by_name

/-- `get_quicktime_template`: reads `self._raw_preset["quicktime_template"]`
(dict access: `KeyError` when the key is absent); a truthy (nonempty) value is
resolved through the registry, a falsy one yields the `None` sentinel. -/
def get_quicktime_template (p : ExportPreset) : Except PyError (Option Template) :=
  (dictGetE p.raw_preset "quicktime_template").map
    (fun quicktime_template_name =>
      if quicktime_template_name ≠ "" then
        some (p.app.get_template_by_name quicktime_template_name)
      else
        none)

/-- `make_highres_quicktime`: `self.get_quicktime_template() is not None`. -/
def make_highres_quicktime (p : ExportPreset) : Except PyError Bool :=
  p.get_quicktime_template.map (fun o => o.isSome)

/-- `__get_publish_name(template, path)`: `"Unknown"` when the template is
`None` or the path does not validate, else `"%s, %s" % (fields.get("Shot"),
fields.get("segment_name"))`. -/
def get_publish_name (template : Option Template) (path : String) : String :=
  match template with
  | none => "Unknown"
  | some t =>
    if t.validate path then
      pyStrOfOpt ((t.get_fields path).lookup "Shot") ++ ", " ++
        pyStrOfOpt ((t.get_fields path).lookup "segment_name")
    else
      "Unknown"

/-- `get_render_publish_name(path)`:
`self.__get_publish_name(self.get_render_template(), path)`. -/
def get_render_publish_name (p : ExportPreset) (path : String) : Except PyError String :=
  p.get_render_template.map (fun t => get_publish_name (some t) path)

/-- `get_quicktime_publish_name(path)`:
`self.__get_publish_name(self.get_quicktime_template(), path)`. -/
def get_quicktime_publish_name (p : ExportPreset) (path : String) : Except PyError String :=
  p.get_quicktime_template.map (fun t => get_publish_name t path)

/-- `quicktime_path_from_render_path(render_path)`: raises a `TankError` when
`get_quicktime_template()` is `None`, otherwise extracts the render template's
fields from the path and applies them to the quicktime template. The source
fetches the quicktime template a second time after the guard; the method is a
pure read of the record so the model reuses the first fetch. The `"%s: "`
repr-of-self prefix of the error message is elided from the model. -/
def quicktime_path_from_render_path (p : ExportPreset) (render_path : String) :
    Except PyError String :=
  match p.get_quicktime_template with
  | Except.error e => Except.error e
  | Except.ok none =>
    Except.error (PyError.tankError
      "Cannot evaluate quicktime path because no quicktime template has been defined.")
  | Except.ok (some quicktime_template) =>
    match p.get_render_template with
    | Except.error e => Except.error e
    | Except.ok render_template =>
      Except.ok (quicktime_template.apply_fields (render_template.get_fields render_path))

end ExportPreset

/-- `ExportPresetHandler`: holds the name-keyed dict of presets built at
construction time (`self._export_presets`). -/
structure ExportPresetHandler where
  export_presets : List (String × ExportPreset)

/-- The constructor loop of `ExportPresetHandler.__init__`:
`for raw_preset in raw_preset_data: self._export_presets[raw_preset["name"]]
= ExportPreset(raw_preset)`. Dict access of `"name"` may raise `KeyError`. -/
def buildPresetDict (app : App) :
    List (List (String × String)) → List (String × ExportPreset) →
    Except PyError (List (String × ExportPreset))
  | [], acc => Except.ok acc
  | raw_preset :: rest, acc =>
    match dictGetE raw_preset "name" with
    | Except.error e => Except.error e
    | Except.ok preset_name =>
      buildPresetDict app rest (dictInsert acc preset_name ⟨app, raw_preset⟩)

/-- `ExportPresetHandler.__init__`: reads the `plate_presets` setting (passed
here as `raw_preset_data`) and builds the name-keyed preset dict. -/
def ExportPresetHandler.init (app : App) (raw_preset_data : List (List (String × String))) :
    Except PyError ExportPresetHandler :=
  (buildPresetDict app raw_preset_data []).map ExportPresetHandler.mk

namespace ExportPresetHandler

/-- `get_preset_names`: `self._export_presets.keys()`. -/
def get_preset_names (h : ExportPresetHandler) : List String :=
  h.export_presets.map Prod.fst

/-- `get_preset_by_name(preset_name)`: raises a `TankError` naming the unknown
preset when the key is absent, otherwise returns the stored preset. The
source phrases this as a `not in` membership test followed by dict access on
the (present) key, which is one first-match lookup here. -/
def get_preset_by_name (h : ExportPresetHandler) (preset_name : String) :
    Except PyError ExportPreset :=
  match h.export_presets.lookup preset_name with
  | none =>
    Except.error (PyError.tankError
      ("Export preset manager cannot find preset '" ++ preset_name ++
        "' in the configuration!"))
  | some p => Except.ok p

/-- The scan loop of `get_preset_for_render_path`: walk the dict values in
order, resolve each preset's render template (dict access may raise), and stop
at the first whose template validates the path. -/
def findMatchingPreset (path : String) :
    List ExportPreset → Except PyError (Option ExportPreset)
  | [] => Except.ok none
  | preset_obj :: rest =>
    match preset_obj.get_render_template with
    | Except.error e => Except.error e
    | Except.ok template =>
      if template.validate path then
        Except.ok (some preset_obj)
      else
        findMatchingPreset path rest

/-- `get_preset_for_render_path(path)`: first preset among
`self._export_presets.values()` whose render template validates the path,
`None` when none does. -/
def get_preset_for_render_path (h : ExportPresetHandler) (path : String) :
    Except PyError (Option ExportPreset) :=
  findMatchingPreset path (h.export_presets.map Prod.snd)

end ExportPresetHandler

/-! ### Toolkit → Flame dialect translation (`__resolve_flame_templates`) -/

/-- Fuel-indexed core of Python `str.replace`: scan left to right, emit the
replacement at each (non-overlapping, leftmost) occurrence of the pattern,
copy the character otherwise. Fuel equal to the scanned list's length
suffices for every nonempty pattern. -/
def replaceAllFuel (pat rep : List Char) : Nat → List Char → List Char
  | _, [] => []
  | 0, s => s
  | n + 1, c :: rest =>
    if pat.isPrefixOf (c :: rest) then
      rep ++ replaceAllFuel pat rep n ((c :: rest).drop pat.length)
    else
      c :: replaceAllFuel pat rep n rest

/-- Python `s.replace(pat, rep)` on character lists. An empty pattern
interleaves the replacement between all characters, as in Python. -/
def replaceAll (pat rep s : List Char) : List Char :=
  if pat = [] then
    rep ++ s.flatMap (fun c => c :: rep)
  else
    replaceAllFuel pat rep s.length s

/-- Python `s.replace(pat, rep)` on strings. -/
def pyReplace (s pat rep : String) : String :=
  String.mk (replaceAll pat.data rep.data s.data)

/-- Index of the last occurrence of a character in a list (`str.rfind`),
`none` when absent. -/
def lastIdxOf (c : Char) : List Char → Option Nat
  | [] => none
  | a :: rest =>
    match lastIdxOf c rest with
    | some i => some (i + 1)
    | none => if a = c then some 0 else none

/-- Start index of the final path component: one past the last `'/'`
(`sepIndex + 1` in posixpath's generic splitext), `0` when there is no
separator (Python's `rfind` returns `-1` there). -/
def filenameIndex (p : List Char) : Nat :=
  match lastIdxOf '/' p with
  | none => 0
  | some sepIndex => sepIndex + 1

/-- Python `os.path.splitext` (posixpath): split at the last `'.'` provided it
comes after the last `'/'` and at least one non-dot character of the final
path component precedes it (a purely-dotted leading run, as in `".bashrc"`,
yields no extension). -/
def splitext (p : List Char) : List Char × List Char :=
  match lastIdxOf '.' p with
  | none => (p, [])
  | some dotIndex =>
    if filenameIndex p ≤ dotIndex ∧
        ((p.drop (filenameIndex p)).take (dotIndex - filenameIndex p)).any
          (fun c => c != '.') = true then
      (p.take dotIndex, p.drop dotIndex)
    else
      (p, [])

/-- `os.path.splitext` on strings. -/
def splitextStr (p : String) : String × String :=
  (String.mk (splitext p.data).1, String.mk (splitext p.data).2)

/-- The chain of `str.replace` substitutions of `__resolve_flame_templates`
applied to one template definition, in source order: the configured
`shot_parent_entity_type` token first, then the shot/segment/version/SEQ
tokens, then the date/time and dimension tokens. -/
def flameSubstitutions (shot_parent_entity_type : String) (template_def : String) : String :=
  let d := pyReplace template_def ("\x7b" ++ shot_parent_entity_type ++ "\x7d") "<name>"
  let d := pyReplace d "{Shot}" "<shot name>"
  let d := pyReplace d "{segment_name}" "<segment name>"
  let d := pyReplace d "{version}" "<version>"
  let d := pyReplace d "{SEQ}" "<frame>"
  let d := pyReplace d "{YYYY}" "<YYYY>"
  let d := pyReplace d "{MM}" "<MM>"
  let d := pyReplace d "{DD}" "<DD>"
  let d := pyReplace d "{hh}" "<hh>"
  let d := pyReplace d "{mm}" "<mm>"
  let d := pyReplace d "{ss}" "<ss>"
  let d := pyReplace d "{width}" "<width>"
  let d := pyReplace d "{height}" "<height>"
  d

/-- Full per-definition translation of `__resolve_flame_templates`: the token
substitutions followed by `(head, _) = os.path.splitext(...)` and
`"%s<ext>" % head`. -/
def resolveFlameTemplate (shot_parent_entity_type template_def : String) : String :=
  (splitextStr (flameSubstitutions shot_parent_entity_type template_def)).1 ++ "<ext>"

/-! ### Padding values of `get_xml_path` -/

/-- Python `s.lstrip(chars)`: drop leading characters belonging to the set. -/
def pyLstrip (chars s : String) : String :=
  String.mk (s.data.dropWhile (fun c => chars.data.contains c))

/-- The frame-padding computation of `get_xml_path`:
`template.keys["SEQ"].format_spec.lstrip("0")`, the value substituted for
`{FRAME_PADDING}` in the generated XML. Dict access may raise `KeyError`. -/
def framePaddingValue (template : Template) : Except PyError String :=
  match template.keys "SEQ" with
  | none => Except.error (PyError.keyError "SEQ")
  | some sequence_key => Except.ok (pyLstrip "0" sequence_key.format_spec)

/-- The version-padding computation of `get_xml_path`:
`template.keys["version"].format_spec.lstrip("0")`, the value substituted for
`{VERSION_PADDING}` in the generated XML. -/
def versionPaddingValue (template : Template) : Except PyError String :=
  match template.keys "version" with
  | none => Except.error (PyError.keyError "version")
  | some version_key => Except.ok (pyLstrip "0" version_key.format_spec)

/-! ### Concrete configuration instances used to evaluate the theorems -/

/-- The documented plate template definition from the source's comments. -/
def plateDef : String :=
  "sequences/{Sequence}/{Shot}/editorial/plates/{segment_name}_{Shot}.v{version}.{SEQ}.dpx"

/-- A concrete render template: validates exactly the path `"good_path"`,
from which it extracts a shot and a segment name. -/
def tmplRender : Template :=
  { definition := plateDef
    validate := fun path => path == "good_path"
    get_fields := fun _ => [("Shot", "sh010"), ("segment_name", "segA"), ("version", "3")]
    apply_fields := fun _ => "applied_render"
    keys := fun k =>
      if k == "SEQ" then some ⟨"04"⟩
      else if k == "version" then some ⟨"0"⟩
      else none }

/-- A concrete quicktime template. -/
def tmplQuicktime : Template :=
  { definition := "sequences/{Sequence}/{Shot}/editorial/movies/{segment_name}_{Shot}.mov"
    validate := fun path => path == "qt_path"
    get_fields := fun _ => [("Shot", "sh010"), ("segment_name", "segA")]
    apply_fields := fun _ => "movies/sh010.mov"
    keys := fun _ => none }

/-- A template that validates every path but whose extracted field mapping
carries neither a `"Shot"` nor a `"segment_name"` key. -/
def tmplBare : Template :=
  { definition := "shots/{version}"
    validate := fun _ => true
    get_fields := fun _ => [("version", "3")]
    apply_fields := fun _ => "shots/3"
    keys := fun _ => none }

/-- A concrete host application: a registry resolving two template names and
the parent-entity setting of the documented example. -/
def appX : App :=
  { get_template_by_name := fun n =>
      if n == "qt_tmpl" then tmplQuicktime
      else if n == "bare_tmpl" then tmplBare
      else tmplRender
    shot_parent_entity_type := "Sequence" }

/-- A preset whose record carries a nonempty quicktime template name. -/
def presetFull : ExportPreset :=
  ⟨appX, [("name", "full_preset"), ("template", "render_tmpl"),
    ("quicktime_template", "qt_tmpl")]⟩

/-- A preset whose record carries an empty quicktime template name. -/
def presetNoQt : ExportPreset :=
  ⟨appX, [("name", "noqt_preset"), ("template", "render_tmpl"),
    ("quicktime_template", "")]⟩

/-- A preset whose record lacks the `"quicktime_template"` key entirely. -/
def presetMissingQtKey : ExportPreset :=
  ⟨appX, [("name", "bare_preset"), ("template", "render_tmpl")]⟩

/-- A preset whose templates validate everything but expose no shot/segment
fields. -/
def presetBare : ExportPreset :=
  ⟨appX, [("name", "fieldless_preset"), ("template", "bare_tmpl"),
    ("quicktime_template", "bare_tmpl")]⟩

/-- The raw configuration list handed to the handler constructor in the
concrete instances. -/
def raws0 : List (List (String × String)) :=
  [presetFull.raw_preset, presetNoQt.raw_preset]

/-- The handler the constructor builds from `raws0`. -/
def handler0 : ExportPresetHandler :=
  ⟨[("full_preset", presetFull), ("noqt_preset", presetNoQt)]⟩

/-! ### Helper lemmas -/

/-- A successful association-list lookup produces an entry of the list. -/
theorem lookup_mem {α : Type} {d : List (String × α)} {k : String} {v : α}
    (h : d.lookup k = some v) : (k, v) ∈ d := by
  obtain ⟨l₁, l₂, rfl, -⟩ := List.lookup_eq_some_iff.mp h
  exact List.mem_append_right _ (List.mem_cons_self _ _)

/-- A key listed among an association list's keys has a successful lookup. -/
theorem mem_keys_lookup {α : Type} {d : List (String × α)} {k : String}
    (h : k ∈ d.map Prod.fst) : ∃ v, d.lookup k = some v := by
  cases hv : d.lookup k with
  | some v => exact ⟨v, rfl⟩
  | none =>
    obtain ⟨p, hp, hk⟩ := List.mem_map.mp h
    have := List.lookup_eq_none_iff.mp hv p hp
    simp [← hk] at this

/-- A key absent from an association list's keys has a failing lookup. -/
theorem lookup_eq_none_of_not_mem_keys {α : Type} {d : List (String × α)} {k : String}
    (h : k ∉ d.map Prod.fst) : d.lookup k = none := by
  cases hv : d.lookup k with
  | none => rfl
  | some v =>
    exact absurd (List.mem_map.mpr ⟨(k, v), lookup_mem hv, rfl⟩) h

/-- Every entry of `dictInsert d k v` is an entry of `d` or the new pair. -/
theorem mem_dictInsert {α : Type} {d : List (String × α)} {k : String} {v : α}
    {kp : String × α} (h : kp ∈ dictInsert d k v) : kp ∈ d ∨ kp = (k, v) := by
  unfold dictInsert at h
  split at h
  · obtain ⟨kv, hkv, heq⟩ := List.mem_map.mp h
    by_cases hk : kv.1 == k
    · rw [if_pos hk] at heq
      exact Or.inr heq.symm
    · rw [if_neg hk] at heq
      exact Or.inl (heq ▸ hkv)
  · rcases List.mem_append.mp h with h | h
    · exact Or.inl h
    · exact Or.inr (List.mem_singleton.mp h)

/-- The character found by `lastIdxOf` heads the drop at its index. -/
theorem lastIdxOf_drop {c : Char} {s : List Char} {d : Nat}
    (h : lastIdxOf c s = some d) : ∃ rest, s.drop d = c :: rest := by
  induction s generalizing d with
  | nil => simp [lastIdxOf] at h
  | cons a tail ih =>
    rw [lastIdxOf] at h
    split at h
    · next i hi =>
      injection h with h
      subst h
      simpa using ih hi
    · split at h
      · next hac =>
        injection h with h
        subst h
        exact ⟨tail, by simp [hac]⟩
      · simp at h

/-- `splitext` decomposes its input: head and extension concatenate back. -/
theorem splitext_fst_append_snd (p : List Char) :
    (splitext p).1 ++ (splitext p).2 = p := by
  unfold splitext
  split
  · simp
  · split
    · simp [List.take_append_drop]
    · simp

/-- The extension returned by `splitext` is empty or starts with a dot. -/
theorem splitext_snd_eq (p : List Char) :
    (splitext p).2 = [] ∨ ∃ rest, (splitext p).2 = '.' :: rest := by
  unfold splitext
  split
  · exact Or.inl rfl
  · next d hd =>
    split
    · exact Or.inr (lastIdxOf_drop hd)
    · exact Or.inl rfl

/-- The string-level splitext head carries the list-level head as its data. -/
theorem splitextStr_fst_data (p : String) :
    (splitextStr p).1.data = (splitext p.data).1 := rfl

/-- Boolean bridge: membership of a character in the string `"0"` is equality
with `'0'`. -/
theorem contains_zero (c : Char) : (("0".data).contains c) = (c == '0') := by
  cases h : c == '0' <;> simp [List.contains, List.elem, h]

/-- On the character set `"0"`, Python `lstrip` drops exactly the leading
`'0'` characters. -/
theorem pyLstrip_zero (s : String) :
    pyLstrip "0" s = String.mk (s.data.dropWhile (fun c => c == '0')) := by
  unfold pyLstrip
  have h : (fun c => ("0".data).contains c) = (fun c : Char => c == '0') :=
    funext contains_zero
  rw [h]

/-! ### Claim theorems -/

/-- C1 (counterexample): for a raw preset record lacking the
`"quicktime_template"` key, `get_quicktime_template()` does not return the
absent sentinel — the dict access raises `KeyError`, and
`make_highres_quicktime()` propagates the same error instead of returning
false. -/
theorem c1_counterexample :
    ExportPreset.get_quicktime_template presetMissingQtKey =
      Except.error (PyError.keyError "quicktime_template") ∧
    ExportPreset.get_quicktime_template presetMissingQtKey ≠ Except.ok none ∧
    ExportPreset.make_highres_quicktime presetMissingQtKey =
      Except.error (PyError.keyError "quicktime_template") := by
  refine ⟨rfl, ?_, rfl⟩
  intro hcontra
  have herr : ExportPreset.get_quicktime_template presetMissingQtKey =
      Except.error (PyError.keyError "quicktime_template") := rfl
  rw [herr] at hcontra
  exact Except.noConfusion hcontra

/-- C1 (amended): when the record carries the `"quicktime_template"` key,
`make_highres_quicktime()` is true for a nonempty value and false for an
empty one, and `get_quicktime_template()` returns the absent sentinel exactly
for the empty value; when the key is absent, both operations raise `KeyError`
rather than treating the record as having no secondary template. -/
theorem c1_amended_quicktime_template (p : ExportPreset) :
    (∀ v, p.raw_preset.lookup "quicktime_template" = some v →
      (p.make_highres_quicktime = Except.ok true ↔ v ≠ "") ∧
      (p.make_highres_quicktime = Except.ok false ↔ v = "") ∧
      (p.get_quicktime_template = Except.ok none ↔ v = "")) ∧
    (p.raw_preset.lookup "quicktime_template" = none →
      p.get_quicktime_template = Except.error (PyError.keyError "quicktime_template") ∧
      p.make_highres_quicktime = Except.error (PyError.keyError "quicktime_template")) := by
  constructor
  · intro v hv
    by_cases hve : v = ""
    · subst hve
      simp [ExportPreset.make_highres_quicktime, ExportPreset.get_quicktime_template,
        dictGetE, hv, Except.map]
    · simp [ExportPreset.make_highres_quicktime, ExportPreset.get_quicktime_template,
        dictGetE, hv, hve, Except.map]
  · intro hv
    simp [ExportPreset.make_highres_quicktime, ExportPreset.get_quicktime_template,
      dictGetE, hv, Except.map]

/-- C1 (witness): the amended theorem evaluated on a record with an empty
quicktime template value and one with a nonempty value. -/
theorem c1_witness :
    ExportPreset.make_highres_quicktime presetNoQt = Except.ok false ∧
    ExportPreset.make_highres_quicktime presetFull = Except.ok true := by
  constructor
  · exact ((c1_amended_quicktime_template presetNoQt).1 "" rfl).2.1.mpr rfl
  · exact ((c1_amended_quicktime_template presetFull).1 "qt_tmpl" rfl).1.mpr (by decide)

/-- C3: `quicktime_path_from_render_path(path)` raises the generic pipeline
configuration error (`TankError`, not any other failure) for every input path
whenever the quicktime template is the absent sentinel, and when one is
configured it returns the quicktime template applied to the fields the render
template extracts from the input path. -/
theorem c3_quicktime_path_config_error (p : ExportPreset) (path : String) :
    (p.get_quicktime_template = Except.ok none →
      p.quicktime_path_from_render_path path =
        Except.error (PyError.tankError
          "Cannot evaluate quicktime path because no quicktime template has been defined.")) ∧
    (∀ qt rt, p.get_quicktime_template = Except.ok (some qt) →
      p.get_render_template = Except.ok rt →
      p.quicktime_path_from_render_path path =
        Except.ok (qt.apply_fields (rt.get_fields path))) := by
  constructor
  · intro hq
    simp [ExportPreset.quicktime_path_from_render_path, hq, Except.bind]
  · intro qt rt hq hrt
    simp [ExportPreset.quicktime_path_from_render_path, hq, hrt, Except.bind]

/-- C3 (witness): the configuration error on a preset with an empty quicktime
template, and the derived path on a fully configured preset. -/
theorem c3_witness :
    ExportPreset.quicktime_path_from_render_path presetNoQt "any/path" =
      Except.error (PyError.tankError
        "Cannot evaluate quicktime path because no quicktime template has been defined.") ∧
    ExportPreset.quicktime_path_from_render_path presetFull "some/render/path" =
      Except.ok "movies/sh010.mov" := by
  constructor
  · exact (c3_quicktime_path_config_error presetNoQt "any/path").1 rfl
  · exact (c3_quicktime_path_config_error presetFull "some/render/path").2
      tmplQuicktime tmplRender rfl rfl

/-- C4: `get_render_publish_name(path)` returns `"Unknown"` when the path
does not validate against the render template, returns the extracted
`"<shot>, <segment>"` when it does and both fields are present, and always
returns a value (never raises) once the render template resolves. -/
theorem c4_render_publish_name (p : ExportPreset) (path : String) (rt : Template)
    (hrt : p.get_render_template = Except.ok rt) :
    (rt.validate path = false → p.get_render_publish_name path = Except.ok "Unknown") ∧
    (∀ shot seg, rt.validate path = true →
      (rt.get_fields path).lookup "Shot" = some shot →
      (rt.get_fields path).lookup "segment_name" = some seg →
      p.get_render_publish_name path = Except.ok (shot ++ ", " ++ seg)) ∧
    (∃ s, p.get_render_publish_name path = Except.ok s) := by
  have hname : p.get_render_publish_name path =
      Except.ok (ExportPreset.get_publish_name (some rt) path) := by
    simp [ExportPreset.get_render_publish_name, hrt, Except.map]
  refine ⟨?_, ?_, ⟨_, hname⟩⟩
  · intro hval
    rw [hname]
    simp [ExportPreset.get_publish_name, hval]
  · intro shot seg hval hshot hseg
    rw [hname]
    simp [ExportPreset.get_publish_name, hval, hshot, hseg, pyStrOfOpt]

/-- C4 (witness): the fallback label on a non-validating path and the
shot/segment name on a validating one. -/
theorem c4_witness :
    ExportPreset.get_render_publish_name presetFull "bad_path" = Except.ok "Unknown" ∧
    ExportPreset.get_render_publish_name presetFull "good_path" = Except.ok "sh010, segA" := by
  constructor
  · exact (c4_render_publish_name presetFull "bad_path" tmplRender rfl).1 (by decide)
  · exact (c4_render_publish_name presetFull "good_path" tmplRender rfl).2.1
      "sh010" "segA" (by decide) rfl rfl

/-- C10: when a path validates but the extracted field mapping lacks the
`"Shot"` and `"segment_name"` keys, the publish-name operations neither fall
back to `"Unknown"` nor fail: the defaulting `dict.get` lookup renders the
missing fields as `"None"`, producing `"None, None"`. -/
theorem c10_missing_fields_publish_name (p : ExportPreset) (path : String) :
    (∀ rt, p.get_render_template = Except.ok rt → rt.validate path = true →
      (rt.get_fields path).lookup "Shot" = none →
      (rt.get_fields path).lookup "segment_name" = none →
      p.get_render_publish_name path = Except.ok "None, None" ∧
      p.get_render_publish_name path ≠ Except.ok "Unknown") ∧
    (∀ qt, p.get_quicktime_template = Except.ok (some qt) → qt.validate path = true →
      (qt.get_fields path).lookup "Shot" = none →
      (qt.get_fields path).lookup "segment_name" = none →
      p.get_quicktime_publish_name path = Except.ok "None, None" ∧
      p.get_quicktime_publish_name path ≠ Except.ok "Unknown") := by
  constructor
  · intro rt hrt hval hshot hseg
    have hres : p.get_render_publish_name path = Except.ok "None, None" := by
      simp [ExportPreset.get_render_publish_name, hrt, Except.map,
        ExportPreset.get_publish_name, hval, hshot, hseg, pyStrOfOpt]
    refine ⟨hres, ?_⟩
    intro hc
    rw [hres] at hc
    exact absurd (Except.ok.inj hc) (by decide)
  · intro qt hqt hval hshot hseg
    have hres : p.get_quicktime_publish_name path = Except.ok "None, None" := by
      simp [ExportPreset.get_quicktime_publish_name, hqt, Except.map,
        ExportPreset.get_publish_name, hval, hshot, hseg, pyStrOfOpt]
    refine ⟨hres, ?_⟩
    intro hc
    rw [hres] at hc
    exact absurd (Except.ok.inj hc) (by decide)

set_option maxRecDepth 8192 in
/-- C2 (counterexample): dialect translation applied a second time to its own
output changes it: on the documented plate template the first pass yields
`...v<version>.<frame><ext>` and the second strips from the last dot and
appends another `<ext>`, yielding `...v<version><ext>`. -/
theorem c2_counterexample :
    resolveFlameTemplate "Sequence" (resolveFlameTemplate "Sequence" plateDef) ≠
      resolveFlameTemplate "Sequence" plateDef := by
  decide

/-- C2 (amended): translation is a pure function of the definition string and
the parent-entity token (it is literally a function of those two inputs in
this model), but it is never round-trip stable: whenever the second token
substitution pass leaves the translated output unchanged (the situation the
spec's no-collision rationale describes), the second application still
differs from the first, because the extension step strips the suffix from the
last dot (the extension is empty or dot-initial, never the appended `<ext>`
placeholder) and appends another `<ext>`. -/
theorem c2_translation_not_roundtrip (parent s : String)
    (hfix : flameSubstitutions parent (resolveFlameTemplate parent s) =
      resolveFlameTemplate parent s) :
    resolveFlameTemplate parent (resolveFlameTemplate parent s) ≠
      resolveFlameTemplate parent s := by
  intro heq
  generalize hX : resolveFlameTemplate parent s = t at hfix heq
  unfold resolveFlameTemplate at heq
  rw [hfix] at heq
  have hd := congrArg String.data heq
  rw [String.data_append, splitextStr_fst_data] at hd
  have hext : "<ext>".data = (splitext t.data).2 :=
    List.append_cancel_left (hd.trans (splitext_fst_append_snd t.data).symm)
  rcases splitext_snd_eq t.data with h0 | ⟨rest, h0⟩
  · rw [h0] at hext
    exact absurd hext (by decide)
  · rw [h0] at hext
    have h3 : (some '<' : Option Char) = some '.' := congrArg List.head? hext
    exact absurd (Option.some.inj h3) (by decide)

set_option maxRecDepth 8192 in
/-- C2 (witness): the substitution pass is indeed a no-op on the translated
plate template, and the amended theorem instantiated there shows the second
application changes the output. -/
theorem c2_witness :
    flameSubstitutions "Sequence" (resolveFlameTemplate "Sequence" plateDef) =
      resolveFlameTemplate "Sequence" plateDef ∧
    resolveFlameTemplate "Sequence" (resolveFlameTemplate "Sequence" plateDef) ≠
      resolveFlameTemplate "Sequence" plateDef :=
  ⟨by decide, c2_translation_not_roundtrip "Sequence" plateDef (by decide)⟩

set_option maxRecDepth 8192 in
/-- C5: with parent-entity token `Sequence`, dialect translation maps the
documented plate template definition exactly to the documented Flame
pattern. -/
theorem c5_translation_example :
    resolveFlameTemplate "Sequence" plateDef =
      "sequences/<name>/<shot name>/editorial/plates/<segment name>_<shot name>.v<version>.<frame><ext>" := by
  decide

/-- C6: the frame-padding (and version-padding) value placed into the
generated XML is the corresponding field's zero-padding width specifier with
every leading `'0'` character stripped: `"04"` yields `"4"` and `"0"` yields
the empty string. -/
theorem c6_padding_lstrip (t : Template) (seqKey verKey : TemplateKey)
    (hs : t.keys "SEQ" = some seqKey) (hv : t.keys "version" = some verKey) :
    framePaddingValue t =
      Except.ok (String.mk (seqKey.format_spec.data.dropWhile (fun c => c == '0'))) ∧
    versionPaddingValue t =
      Except.ok (String.mk (verKey.format_spec.data.dropWhile (fun c => c == '0'))) ∧
    (seqKey.format_spec = "04" → framePaddingValue t = Except.ok "4") ∧
    (verKey.format_spec = "0" → versionPaddingValue t = Except.ok "") := by
  have hf : framePaddingValue t = Except.ok (pyLstrip "0" seqKey.format_spec) := by
    unfold framePaddingValue
    rw [hs]
  have hvv : versionPaddingValue t = Except.ok (pyLstrip "0" verKey.format_spec) := by
    unfold versionPaddingValue
    rw [hv]
  refine ⟨by rw [hf, pyLstrip_zero], by rw [hvv, pyLstrip_zero], ?_, ?_⟩
  · intro h04
    rw [hf, h04]
    rfl
  · intro h0
    rw [hvv, h0]
    rfl

/-- C6 (witness): the concrete render template with width specifiers `"04"`
for the sequence field and `"0"` for the version field. -/
theorem c6_witness :
    framePaddingValue tmplRender = Except.ok "4" ∧
    versionPaddingValue tmplRender = Except.ok "" := by
  constructor
  · exact (c6_padding_lstrip tmplRender ⟨"04"⟩ ⟨"0"⟩ rfl rfl).2.2.1 rfl
  · exact (c6_padding_lstrip tmplRender ⟨"04"⟩ ⟨"0"⟩ rfl rfl).2.2.2 rfl

/-- Full characterization of the scan loop: given that every preset's render
template resolves, the loop returns `none` exactly when no preset validates
the path, and a returned preset splits the list so that everything scanned
before it failed to validate. -/
theorem findMatchingPreset_spec (path : String) (l : List ExportPreset)
    (hwf : ∀ p ∈ l, ∃ rt, p.get_render_template = Except.ok rt) :
    (ExportPresetHandler.findMatchingPreset path l = Except.ok none ↔
      ∀ p ∈ l, ∀ rt, p.get_render_template = Except.ok rt → rt.validate path = false) ∧
    (∀ q, ExportPresetHandler.findMatchingPreset path l = Except.ok (some q) →
      (∃ rt, q.get_render_template = Except.ok rt ∧ rt.validate path = true) ∧
      ∃ pre post, l = pre ++ q :: post ∧
        ∀ p ∈ pre, ∀ rt, p.get_render_template = Except.ok rt →
          rt.validate path = false) := by
  induction l with
  | nil =>
    constructor
    · simp [ExportPresetHandler.findMatchingPreset]
    · intro q hq
      simp [ExportPresetHandler.findMatchingPreset] at hq
  | cons p0 rest ih =>
    obtain ⟨rt0, hrt0⟩ := hwf p0 (List.mem_cons_self _ _)
    have hwf' : ∀ p ∈ rest, ∃ rt, p.get_render_template = Except.ok rt :=
      fun p hp => hwf p (List.mem_cons_of_mem _ hp)
    obtain ⟨ih1, ih2⟩ := ih hwf'
    by_cases hval : rt0.validate path = true
    · have hres : ExportPresetHandler.findMatchingPreset path (p0 :: rest) =
          Except.ok (some p0) := by
        simp [ExportPresetHandler.findMatchingPreset, hrt0, hval]
      constructor
      · rw [hres]
        constructor
        · intro hc
          exact absurd (Except.ok.inj hc) (by simp)
        · intro hall
          have hfalse := hall p0 (List.mem_cons_self _ _) rt0 hrt0
          rw [hval] at hfalse
          exact absurd hfalse (by simp)
      · intro q hq
        rw [hres] at hq
        have hq0 : p0 = q := Option.some.inj (Except.ok.inj hq)
        subst hq0
        exact ⟨⟨rt0, hrt0, hval⟩, [], rest, rfl, by simp⟩
    · simp only [Bool.not_eq_true] at hval
      have hres : ExportPresetHandler.findMatchingPreset path (p0 :: rest) =
          ExportPresetHandler.findMatchingPreset path rest := by
        simp [ExportPresetHandler.findMatchingPreset, hrt0, hval]
      constructor
      · rw [hres, ih1]
        constructor
        · intro hall p hp rt hrt
          rcases List.mem_cons.mp hp with rfl | hp'
          · rw [hrt0] at hrt
            cases Except.ok.inj hrt
            exact hval
          · exact hall p hp' rt hrt
        · intro hall p hp rt hrt
          exact hall p (List.mem_cons_of_mem _ hp) rt hrt
      · intro q hq
        rw [hres] at hq
        obtain ⟨hqv, pre, post, hsplit, hpre⟩ := ih2 q hq
        refine ⟨hqv, p0 :: pre, post, by rw [List.cons_append, hsplit], ?_⟩
        intro p hp rt hrt
        rcases List.mem_cons.mp hp with rfl | hp'
        · rw [hrt0] at hrt
          cases Except.ok.inj hrt
          exact hval
        · exact hpre p hp' rt hrt

/-- C7: `get_preset_for_render_path(path)` returns the `None` sentinel exactly
when the path validates against none of the loaded presets' render templates,
and a returned preset is a loaded preset that validates the path and is the
first match in the scan order (everything before it fails to validate). -/
theorem c7_preset_for_render_path (h : ExportPresetHandler) (path : String)
    (hwf : ∀ p ∈ h.export_presets.map Prod.snd, ∃ rt,
      p.get_render_template = Except.ok rt) :
    (h.get_preset_for_render_path path = Except.ok none ↔
      ∀ p ∈ h.export_presets.map Prod.snd, ∀ rt,
        p.get_render_template = Except.ok rt → rt.validate path = false) ∧
    (∀ q, h.get_preset_for_render_path path = Except.ok (some q) →
      (∃ rt, q.get_render_template = Except.ok rt ∧ rt.validate path = true) ∧
      ∃ pre post, h.export_presets.map Prod.snd = pre ++ q :: post ∧
        ∀ p ∈ pre, ∀ rt, p.get_render_template = Except.ok rt →
          rt.validate path = false) :=
  findMatchingPreset_spec path (h.export_presets.map Prod.snd) hwf

/-- C7 (witness): on the concrete handler, a path validating no preset maps
to the sentinel, and `"good_path"` is matched by a validating preset. -/
theorem c7_witness :
    ExportPresetHandler.get_preset_for_render_path handler0 "zzz" = Except.ok none ∧
    (∃ rt, ExportPreset.get_render_template presetFull = Except.ok rt ∧
      rt.validate "good_path" = true) := by
  have hwfz : ∀ p ∈ handler0.export_presets.map Prod.snd, ∃ rt,
      p.get_render_template = Except.ok rt := by
    intro p hp
    simp [handler0] at hp
    rcases hp with rfl | rfl
    · exact ⟨tmplRender, rfl⟩
    · exact ⟨tmplRender, rfl⟩
  constructor
  · refine (c7_preset_for_render_path handler0 "zzz" hwfz).1.mpr ?_
    intro p hp rt hrt
    simp [handler0] at hp
    rcases hp with rfl | rfl
    · have hr : ExportPreset.get_render_template presetFull = Except.ok tmplRender := rfl
      rw [hr] at hrt
      cases Except.ok.inj hrt
      rfl
    · have hr : ExportPreset.get_render_template presetNoQt = Except.ok tmplRender := rfl
      rw [hr] at hrt
      cases Except.ok.inj hrt
      rfl
  · exact ((c7_preset_for_render_path handler0 "good_path" hwfz).2 presetFull rfl).1

/-- Construction invariant of the handler dict: every stored entry's preset
reports exactly its key as its name, because the constructor keys each preset
by the `"name"` value of its own record. -/
theorem buildPresetDict_invariant (app : App) :
    ∀ (raws : List (List (String × String))) (acc d : List (String × ExportPreset)),
    (∀ kp ∈ acc, ExportPreset.get_name kp.2 = Except.ok kp.1) →
    buildPresetDict app raws acc = Except.ok d →
    ∀ kp ∈ d, ExportPreset.get_name kp.2 = Except.ok kp.1 := by
  intro raws
  induction raws with
  | nil =>
    intro acc d hacc hb
    have had : acc = d := by simpa [buildPresetDict] using hb
    subst had
    exact hacc
  | cons raw rest ih =>
    intro acc d hacc hb
    unfold buildPresetDict at hb
    split at hb
    · exact absurd hb (by simp)
    · next preset_name hname =>
      refine ih _ d ?_ hb
      intro kp hkp
      rcases mem_dictInsert hkp with hmem | heq
      · exact hacc kp hmem
      · rw [heq]
        simpa [ExportPreset.get_name] using hname

/-- C8: name lookup round-trips — every name listed by `get_preset_names()`
is found by `get_preset_by_name`, and the returned preset's `get_name()` is
exactly that name. -/
theorem c8_name_roundtrip (app : App) (raws : List (List (String × String)))
    (h : ExportPresetHandler) (hinit : ExportPresetHandler.init app raws = Except.ok h) :
    ∀ name ∈ h.get_preset_names, ∃ p,
      h.get_preset_by_name name = Except.ok p ∧ p.get_name = Except.ok name := by
  have hd : buildPresetDict app raws [] = Except.ok h.export_presets := by
    unfold ExportPresetHandler.init at hinit
    cases hb : buildPresetDict app raws [] with
    | error e =>
      rw [hb] at hinit
      exact absurd hinit (by simp [Except.map])
    | ok d =>
      rw [hb] at hinit
      have hmk : ExportPresetHandler.mk d = h := by simpa [Except.map] using hinit
      rw [← hmk]
  have hinv := buildPresetDict_invariant app raws [] h.export_presets (by simp) hd
  intro name hname
  obtain ⟨p, hp⟩ := mem_keys_lookup hname
  refine ⟨p, ?_, hinv (name, p) (lookup_mem hp)⟩
  unfold ExportPresetHandler.get_preset_by_name
  rw [hp]

/-- C8 (witness): the handler built from the concrete configuration list
round-trips the name `"full_preset"`. -/
theorem c8_witness :
    ∃ p, ExportPresetHandler.get_preset_by_name handler0 "full_preset" = Except.ok p ∧
      ExportPreset.get_name p = Except.ok "full_preset" :=
  c8_name_roundtrip appX raws0 handler0 rfl "full_preset" (by decide)

/-- C9: `get_preset_by_name(name)` fails with the generic `TankError` whose
message contains the unknown name whenever the name is not among the loaded
preset names, and returns the stored preset for every present name (lookup is
exact string match). -/
theorem c9_get_preset_by_name (h : ExportPresetHandler) (name : String) :
    (name ∉ h.get_preset_names →
      h.get_preset_by_name name =
        Except.error (PyError.tankError
          ("Export preset manager cannot find preset '" ++ name ++
            "' in the configuration!")) ∧
      ∃ pre post,
        ("Export preset manager cannot find preset '" ++ name ++
          "' in the configuration!") = pre ++ name ++ post) ∧
    (∀ p, h.export_presets.lookup name = some p →
      h.get_preset_by_name name = Except.ok p) := by
  constructor
  · intro habs
    have hnone : h.export_presets.lookup name = none :=
      lookup_eq_none_of_not_mem_keys habs
    constructor
    · unfold ExportPresetHandler.get_preset_by_name
      rw [hnone]
    · exact ⟨"Export preset manager cannot find preset '",
        "' in the configuration!", rfl⟩
  · intro p hp
    unfold ExportPresetHandler.get_preset_by_name
    rw [hp]

/-- C9 (witness): an absent name yields the error carrying that name, and a
present name returns its stored preset. -/
theorem c9_witness :
    ExportPresetHandler.get_preset_by_name handler0 "missing" =
      Except.error (PyError.tankError
        "Export preset manager cannot find preset 'missing' in the configuration!") ∧
    ExportPresetHandler.get_preset_by_name handler0 "noqt_preset" = Except.ok presetNoQt := by
  constructor
  · exact ((c9_get_preset_by_name handler0 "missing").1 (by decide)).1
  · exact (c9_get_preset_by_name handler0 "noqt_preset").2 presetNoQt rfl

/-- C10 (witness): both publish-name operations on a preset whose template
validates everything but extracts neither field. -/
theorem c10_witness :
    ExportPreset.get_render_publish_name presetBare "whatever" = Except.ok "None, None" ∧
    ExportPreset.get_quicktime_publish_name presetBare "whatever" = Except.ok "None, None" := by
  constructor
  · exact ((c10_missing_fields_publish_name presetBare "whatever").1
      tmplBare rfl rfl rfl rfl).1
  · exact ((c10_missing_fields_publish_name presetBare "whatever").2
      tmplBare rfl rfl rfl rfl).1

end TkFlameExport
